import Mathlib

namespace Nimbus

/-!
Verification of the nimbus Slack bot (src/nimbus.py): a shallow embedding of
the event dispatch and plugin execution engine, followed by theorems about it.

Modelling conventions:
- Slack event mappings are embedded as a structured record with optional
  fields; the only keys the engine reads are `type`, `channel`, `subtype`
  and `hidden` (plus `text`, carried along but never read by the engine).
- Python dict allocation matters for freshness claims, so every allocated
  response dict and event copy carries an allocation id drawn from a counter
  threaded through dispatch; two dicts are the same object iff their ids
  are equal.
- A KeyError raised by `event[..]` is embedded as an `Except` error; it is
  raised inside the lambda passed to `filter`, hence once per plugin tested.
- The classes Plugin, CommandPlugin and PluginException live in `plugin.py`,
  which is imported by nimbus.py but is not part of this repository snapshot;
  their interface (an `event_type` discriminator, a command-plugin marker
  with a `triggers` list, and a domain error carrying a message) is modelled
  from the spec data model. All engine logic embedded here is from
  src/nimbus.py itself.
- Plugin execution is abstracted by its outcome (normal return, a raised
  domain error with its message, or any other raised error); the completion
  callback `post_error_response` is embedded as a pure function from that
  outcome to the list of posted messages and the number of logged errors.
-/

/-- Python values as far as the engine inspects them: only the truthiness of
the `hidden` field is ever consulted. -/
inductive Value where
  | str (s : String)
  | bool (b : Bool)
  | int (n : Int)
deriving DecidableEq, Repr

/-- Python truthiness of a value. -/
def Value.truthy : Value → Bool
  | .str s => !s.isEmpty
  | .bool b => b
  | .int n => n != 0

/-- One inbound Slack event, as a record of the fields the engine reads.
Absent optional fields are `none`; `event.get(k)` on an absent key yields
Python `None`, which is falsy. -/
structure Event where
  type : Option String
  channel : Option String
  text : Option String
  subtype : Option String
  hidden : Option Value
deriving DecidableEq, Repr

/-- An event object: the event mapping together with its allocation id,
so that the per-invocation `dict(event)` copy can be distinguished from the
original object. -/
structure EventObj where
  id : Nat
  ev : Event
deriving DecidableEq, Repr

/-- A mutable dict object (a response draft): allocation id plus its
string-valued fields. -/
structure Obj where
  id : Nat
  fields : List (String × String)
deriving DecidableEq, Repr

/-- One plugin instance as the engine sees it: its class name, its
`event_type` discriminator, whether it is a CommandPlugin
(`isinstance(p, CommandPlugin)` in the source), and its `triggers` list
(empty for non-command plugins). The help metadata is descriptive only and
not modelled. -/
structure PluginInst where
  name : String
  event_type : String
  isCommand : Bool
  triggers : List String
deriving DecidableEq, Repr

/-- The bot state read by the dispatch path: identity fields used to seed
response drafts, and the plugin collection. -/
structure Bot where
  username : String
  icon_emoji : String
  plugins : List PluginInst
deriving DecidableEq, Repr

/-- The outcome of one completed plugin invocation, as observed by
`future.exception()`: no exception, a PluginException carrying message `m`
(the domain error of plugin.py), or any other exception. -/
inductive PlugOutcome where
  | ok
  | pluginExc (m : String)
  | otherExc (d : String)
deriving DecidableEq, Repr

/-- A Python exception escaping the dispatch path; the only one the engine
can raise itself is a KeyError from `event[k]`. -/
inductive PyErr where
  | keyError (k : String)
deriving DecidableEq, Repr

/-- One unit of work submitted to the executor: the originating event
object, the fresh `dict(event)` copy passed to the plugin, the plugin, and
the response draft shared between the submission and its completion
callback. -/
structure Invocation where
  src : EventObj
  eventCopy : EventObj
  plugin : PluginInst
  response : Obj
deriving DecidableEq, Repr

/-- One attachment of a posted error message, mirroring the dict literal
built in `post_error_response`. -/
structure Attachment where
  title : String
  text : String
  mrkdwn_in : List String
  color : String
  fallback : String
deriving DecidableEq, Repr

/-- One call to `sc.api_call(\x7bchat.postMessage\x7d, **response)`: the
response dict fields plus its `attachments` entry (JSON-encoded in the
source; kept structured here). -/
structure PostedMessage where
  fields : List (String × String)
  attachments : List Attachment
deriving DecidableEq, Repr

/-- The response draft built in `process_event`: a fresh dict with the bot
identity fields, and, when the event carries a channel, that channel. -/
def mkResponse (bot : Bot) (ev : Event) (oid : Nat) : Obj :=
  { id := oid
    fields := [("username", bot.username), ("icon_emoji", bot.icon_emoji)] ++
      (match ev.channel with
       | some c => [("channel", c)]
       | none => []) }

/-- The body of the lambda passed to `filter` in `process_event`:
`p.event_type == event[\x7btype\x7d]`, raising KeyError when the event has
no `type` key. -/
def evalMatch (ev : Event) (p : PluginInst) : Except PyErr Bool :=
  match ev.type with
  | none => .error (.keyError "type")
  | some t => .ok (p.event_type == t)

/-- The `filter(lambda p: p.event_type == event[..], self.plugins)` call:
the lambda runs once per plugin, so the KeyError surfaces only when at
least one plugin is tested. -/
def selectPlugins (ev : Event) : List PluginInst → Except PyErr (List PluginInst)
  | [] => .ok []
  | p :: ps =>
    match evalMatch ev p with
    | .error e => .error e
    | .ok b =>
      match selectPlugins ev ps with
      | .error e => .error e
      | .ok rest => .ok (if b then p :: rest else rest)

/-- The loop body of `process_event` over the matched plugins: per matched
plugin, allocate a fresh response draft and a fresh `dict(event)` copy and
submit the invocation. The allocation counter supplies object ids. -/
def buildInvocations (bot : Bot) (e : EventObj) :
    List PluginInst → Nat → List Invocation × Nat
  | [], ctr => ([], ctr)
  | p :: ps, ctr =>
    let resp := mkResponse bot e.ev ctr
    let copy : EventObj := { id := ctr + 1, ev := e.ev }
    let rest := buildInvocations bot e ps (ctr + 2)
    ({ src := e, eventCopy := copy, plugin := p, response := resp } :: rest.1,
     rest.2)

/-- `Nimbus.process_event`: select the plugins whose `event_type` equals the
event's `type`, then submit one invocation per matched plugin. -/
def processEvent (bot : Bot) (e : EventObj) (ctr : Nat) :
    Except PyErr (List Invocation × Nat) :=
  match selectPlugins e.ev bot.plugins with
  | .error err => .error err
  | .ok ms => .ok (buildInvocations bot e ms ctr)

/-- Truthiness of `event.get(\x7bhidden\x7d)`: an absent key yields None,
which is falsy. -/
def truthyHidden (ev : Event) : Bool :=
  (ev.hidden.map Value.truthy).getD false

/-- The filter applied by `Nimbus.run` before any dispatch: discard events
whose subtype is the bot-origin marker, and hidden events. -/
def skipEvent (ev : Event) : Bool :=
  ev.subtype == some "bot_message" || truthyHidden ev

/-- The per-batch body of `Nimbus.run`: filter each event, dispatch the
survivors, and let any exception raised by `process_event` propagate out of
the loop (nothing in `run` catches it). -/
def runBatch (bot : Bot) : List EventObj → Nat → Except PyErr (List Invocation × Nat)
  | [], ctr => .ok ([], ctr)
  | e :: es, ctr =>
    if skipEvent e.ev then runBatch bot es ctr
    else
      match processEvent bot e ctr with
      | .error err => .error err
      | .ok (invs, ctr2) =>
        match runBatch bot es ctr2 with
        | .error err => .error err
        | .ok (invs2, ctr3) => .ok (invs ++ invs2, ctr3)

/-- The completion callback installed by `Nimbus.add_future_callback`:
given the invocation outcome, either post one formatted error message
(domain error), log one error (any other exception), or do nothing.
Returns the posted messages and the number of logged errors. -/
def postErrorResponse (plugin : PluginInst) (response : Obj) :
    PlugOutcome → List PostedMessage × Nat
  | .pluginExc m =>
    ([{ fields := response.fields
        attachments := [{ title := "Error with plugin \x27" ++ plugin.name ++ "\x27"
                          text := m
                          mrkdwn_in := ["text"]
                          color := "danger"
                          fallback := m }] }], 0)
  | .otherExc _ => ([], 1)
  | .ok => ([], 0)

/-- An argument passed to a plugin class initializer; `register_plugin`
passes the bot instance. -/
inductive InitArg where
  | botRef
deriving DecidableEq, Repr

/-- A discovered plugin class: its name and its initializer, which receives
the positional arguments and either returns an instance or raises. -/
structure PluginClass where
  name : String
  init : List InitArg → Except String PluginInst

/-- `Nimbus.register_plugin`: instantiate the class with the bot as
argument (`plugin(self)` in the source); on success append the instance to
the collection and return true, on any exception log and return false,
leaving the collection unchanged. -/
def registerPlugin (ps : List PluginInst) (k : PluginClass) :
    List PluginInst × Bool :=
  match k.init [InitArg.botRef] with
  | .ok inst => (ps ++ [inst], true)
  | .error _ => (ps, false)

/-- The registration loop of `Nimbus.load_plugins` over the discovered
classes, counting successful registrations. -/
def loadPluginsAux (ps : List PluginInst) (num : Nat) :
    List PluginClass → List PluginInst × Nat
  | [] => (ps, num)
  | k :: ks =>
    let r := registerPlugin ps k
    loadPluginsAux r.1 (if r.2 then num + 1 else num) ks

/-- `Nimbus.load_plugins`: starting from the empty collection, register
every discovered class and report the number successfully loaded. -/
def loadPlugins (classes : List PluginClass) : List PluginInst × Nat :=
  loadPluginsAux [] 0 classes

/-- The inner trigger scan of `Nimbus.get_command`:
`for trig in plugin.triggers: if trigger == trig: return plugin`. -/
def hasTrigger (t : String) : List String → Bool
  | [] => false
  | trig :: rest => if t == trig then true else hasTrigger t rest

/-- `Nimbus.get_command`: linear scan over the command plugins in the
collection, returning the first whose trigger list contains the trigger
(exact, case-sensitive string comparison), or none. -/
def getCommand : List PluginInst → String → Option PluginInst
  | [], _ => none
  | p :: ps, t =>
    if p.isCommand && hasTrigger t p.triggers then some p
    else getCommand ps t

/-- The dispatch decision extracted from a batch run: which plugin was
invoked for which event, forgetting the drafts and copies. -/
def decisionView (r : Except PyErr (List Invocation × Nat)) :
    Except PyErr (List (Nat × PluginInst) × Nat) :=
  r.map (fun x => (x.1.map (fun i => (i.src.id, i.plugin)), x.2))

/-- The dispatch decisions of one batch: the (event id, plugin) pairs
submitted, in order, or the propagated error. -/
def dispatchDecisions (bot : Bot) (es : List EventObj) (ctr : Nat) :
    Except PyErr (List (Nat × PluginInst) × Nat) :=
  decisionView (runBatch bot es ctr)

/-- The decision content of one batch run, computed from the plugin
collection alone: used to state that dispatch decisions depend only on the
events and the plugins, not on the rest of the bot state. -/
def decSpec (plugins : List PluginInst) :
    List EventObj → Nat → Except PyErr (List (Nat × PluginInst) × Nat)
  | [], ctr => .ok ([], ctr)
  | e :: es, ctr =>
    if skipEvent e.ev then decSpec plugins es ctr
    else
      match selectPlugins e.ev plugins with
      | .error err => .error err
      | .ok ms =>
        match decSpec plugins es (ctr + 2 * ms.length) with
        | .error err => .error err
        | .ok r => .ok (ms.map (fun p => (e.id, p)) ++ r.1, r.2)

/-- The plugin instance built by the initializer in src/plugins/uptime.py:
a CommandPlugin with triggers [\x27uptime\x27]. Its `event_type` value
is modelled from the spec: plugin.py (which defines CommandPlugin) is not
in the repository snapshot, and §4.2 of the spec assigns command plugins
the message discriminator. -/
def uptimePlugin : PluginInst :=
  ⟨"Uptime", "message", true, ["uptime"]⟩

/-- The Uptime plugin class of src/plugins/uptime.py, as the loader sees
it: its initializer accepts no positional arguments beyond self
(`def __init__(self)`), so applying it to any argument raises a TypeError,
while applying it to none succeeds. -/
def uptimeClass : PluginClass :=
  ⟨"Uptime", fun args =>
    match args with
    | [] => .ok uptimePlugin
    | _ :: _ => .error "TypeError: Uptime init takes no arguments"⟩

/-- A plugin class whose initializer accepts the bot argument, used to
exercise loading after a failed registration. -/
def otherClass : PluginClass :=
  ⟨"Other", fun _ => .ok ⟨"Other", "message", false, []⟩⟩

/-- Sample bot state for concrete witnesses. -/
def sampleBot : Bot := ⟨"nimbus", ":cloud:", [uptimePlugin]⟩

/-- A bot with different identity fields but the same plugin collection. -/
def otherBot : Bot := ⟨"someone", ":sun:", [uptimePlugin]⟩

/-- Sample message event carrying a channel. -/
def sampleEvent : EventObj :=
  ⟨0, ⟨some "message", some "C123", some "!uptime", none, none⟩⟩

/-- The single invocation that dispatching `sampleEvent` against
`sampleBot` submits, starting from allocation counter 1. -/
def sampleInv : Invocation :=
  ⟨sampleEvent, ⟨2, sampleEvent.ev⟩, uptimePlugin,
   ⟨1, [("username", "nimbus"), ("icon_emoji", ":cloud:"), ("channel", "C123")]⟩⟩

/-- Sample bot-originated event, to be discarded by the run-loop filter. -/
def botMsgEvent : EventObj :=
  ⟨7, ⟨some "message", some "C1", some "hi", some "bot_message", none⟩⟩

/-- Sample surviving event with no `type` key. -/
def notypeEvent : EventObj := ⟨9, ⟨none, some "C1", some "hi", none, none⟩⟩

/-- A bot whose plugin collection is empty. -/
def emptyBot : Bot := ⟨"nimbus", ":cloud:", []⟩

/-! Helper lemmas about the dispatch path. -/

lemma buildInvocations_map_plugin (bot : Bot) (e : EventObj) (ms : List PluginInst) :
    ∀ ctr : Nat, ((buildInvocations bot e ms ctr).1).map (fun i => i.plugin) = ms := by
  induction ms with
  | nil => intro ctr; rfl
  | cons p ps ih => intro ctr; simp [buildInvocations, ih]

lemma buildInvocations_snd (bot : Bot) (e : EventObj) (ms : List PluginInst) :
    ∀ ctr : Nat, (buildInvocations bot e ms ctr).2 = ctr + 2 * ms.length := by
  induction ms with
  | nil => intro ctr; simp [buildInvocations]
  | cons p ps ih => intro ctr; simp [buildInvocations, ih]; ring

lemma buildInvocations_shape (bot : Bot) (e : EventObj) (ms : List PluginInst) :
    ∀ ctr : Nat, ∀ inv ∈ (buildInvocations bot e ms ctr).1,
      inv.src = e ∧ inv.eventCopy.ev = e.ev ∧ ctr ≤ inv.eventCopy.id ∧
        ∃ k, inv.response = mkResponse bot e.ev k := by
  induction ms with
  | nil => intro ctr inv h; simp [buildInvocations] at h
  | cons p ps ih =>
    intro ctr inv h
    simp only [buildInvocations, List.mem_cons] at h
    rcases h with h | h
    · subst h
      exact ⟨rfl, rfl, Nat.le_succ ctr, ctr, rfl⟩
    · obtain ⟨h1, h2, h3, h4⟩ := ih (ctr + 2) inv h
      exact ⟨h1, h2, le_trans (by omega) h3, h4⟩

lemma buildInvocations_resp_ids (bot : Bot) (e : EventObj) (ms : List PluginInst) :
    ∀ ctr : Nat, ((buildInvocations bot e ms ctr).1).map (fun i => i.response.id) =
      (List.range ms.length).map (fun i => ctr + 2 * i) := by
  induction ms with
  | nil => intro ctr; rfl
  | cons p ps ih =>
    intro ctr
    simp only [buildInvocations, List.map_cons, List.length_cons, mkResponse]
    rw [List.range_succ_eq_map]
    simp only [List.map_cons, List.map_map]
    congr 1
    rw [ih (ctr + 2)]
    apply List.map_congr_left
    intro i _
    simp [Function.comp]
    omega

lemma buildInvocations_copy_ids (bot : Bot) (e : EventObj) (ms : List PluginInst) :
    ∀ ctr : Nat, ((buildInvocations bot e ms ctr).1).map (fun i => i.eventCopy.id) =
      (List.range ms.length).map (fun i => ctr + 2 * i + 1) := by
  induction ms with
  | nil => intro ctr; rfl
  | cons p ps ih =>
    intro ctr
    simp only [buildInvocations, List.map_cons, List.length_cons]
    rw [List.range_succ_eq_map]
    simp only [List.map_cons, List.map_map]
    congr 1
    rw [ih (ctr + 2)]
    apply List.map_congr_left
    intro i _
    simp [Function.comp]
    omega

lemma buildInvocations_dec (bot : Bot) (e : EventObj) (ms : List PluginInst) :
    ∀ ctr : Nat, ((buildInvocations bot e ms ctr).1).map (fun i => (i.src.id, i.plugin)) =
      ms.map (fun p => (e.id, p)) := by
  induction ms with
  | nil => intro ctr; rfl
  | cons p ps ih => intro ctr; simp [buildInvocations, ih]

lemma selectPlugins_ok (ev : Event) (t : String) (ht : ev.type = some t) :
    ∀ ps : List PluginInst,
      selectPlugins ev ps = .ok (ps.filter (fun p => p.event_type == t)) := by
  intro ps
  induction ps with
  | nil => rfl
  | cons p ps ih =>
    simp only [selectPlugins, evalMatch, ht, ih, List.filter_cons]

lemma selectPlugins_err (ev : Event) (ht : ev.type = none) (p : PluginInst)
    (ps : List PluginInst) :
    selectPlugins ev (p :: ps) = .error (.keyError "type") := by
  simp [selectPlugins, evalMatch, ht]

lemma mkResponse_lookup_channel (bot : Bot) (ev : Event) (k : Nat) (ch : String)
    (h : ev.channel = some ch) :
    (mkResponse bot ev k).fields.lookup "channel" = some ch := by
  simp [mkResponse, h, List.lookup]

lemma processEvent_ok_shape (bot : Bot) (e : EventObj) (ctr : Nat)
    (invs : List Invocation) (c2 : Nat)
    (h : processEvent bot e ctr = .ok (invs, c2)) :
    ∃ ms, selectPlugins e.ev bot.plugins = .ok ms ∧
      invs = (buildInvocations bot e ms ctr).1 ∧
      c2 = (buildInvocations bot e ms ctr).2 := by
  unfold processEvent at h
  cases hs : selectPlugins e.ev bot.plugins with
  | error err => rw [hs] at h; cases h
  | ok ms =>
    rw [hs] at h
    simp only [Except.ok.injEq] at h
    refine ⟨ms, rfl, ?_, ?_⟩
    · rw [h]
    · rw [h]

lemma runBatch_mem_not_skip (bot : Bot) (es : List EventObj) :
    ∀ ctr invs c2, runBatch bot es ctr = .ok (invs, c2) →
      ∀ inv ∈ invs, skipEvent inv.src.ev = false := by
  induction es with
  | nil =>
    intro ctr invs c2 h inv hm
    simp only [runBatch] at h
    cases h
    simp at hm
  | cons e es ih =>
    intro ctr invs c2 h inv hm
    simp only [runBatch] at h
    by_cases hsk : skipEvent e.ev = true
    · rw [if_pos hsk] at h
      exact ih ctr invs c2 h inv hm
    · rw [if_neg hsk] at h
      cases hp : processEvent bot e ctr with
      | error err => rw [hp] at h; cases h
      | ok r =>
        obtain ⟨invs1, ctr2⟩ := r
        rw [hp] at h
        simp only [] at h
        cases hr : runBatch bot es ctr2 with
        | error err => rw [hr] at h; cases h
        | ok r2 =>
          obtain ⟨invs2, ctr3⟩ := r2
          rw [hr] at h
          simp only [Except.ok.injEq, Prod.mk.injEq] at h
          obtain ⟨hinv, hctr⟩ := h
          rw [← hinv] at hm
          rcases List.mem_append.mp hm with hm1 | hm2
          · obtain ⟨ms, hsel, hinvs, hc⟩ :=
              processEvent_ok_shape bot e ctr invs1 ctr2 hp
            rw [hinvs] at hm1
            obtain ⟨hsrc, _, _, _⟩ := buildInvocations_shape bot e ms ctr inv hm1
            rw [hsrc]
            exact Bool.not_eq_true _ ▸ hsk
          · exact ih ctr2 invs2 ctr3 hr inv hm2

lemma hasTrigger_iff (t : String) (l : List String) :
    hasTrigger t l = true ↔ t ∈ l := by
  induction l with
  | nil => simp [hasTrigger]
  | cons a l ih =>
    unfold hasTrigger
    by_cases h : t = a
    · subst h; simp
    · have hb : (t == a) = false := beq_eq_false_iff_ne.mpr h
      simp [hb, ih, h]

lemma runBatch_decisions (b : Bot) (es : List EventObj) :
    ∀ ctr : Nat, decisionView (runBatch b es ctr) = decSpec b.plugins es ctr := by
  induction es with
  | nil => intro ctr; rfl
  | cons e es ih =>
    intro ctr
    simp only [runBatch, decSpec]
    by_cases hsk : skipEvent e.ev = true
    · rw [if_pos hsk, if_pos hsk]
      exact ih ctr
    · rw [if_neg hsk, if_neg hsk]
      unfold processEvent
      cases hs : selectPlugins e.ev b.plugins with
      | error err => rfl
      | ok ms =>
        rcases hbe : buildInvocations b e ms ctr with ⟨binvs, bctr⟩
        simp only [hbe]
        have hcnt : bctr = ctr + 2 * ms.length := by
          have := buildInvocations_snd b e ms ctr
          rw [hbe] at this
          exact this
        have hdec : binvs.map (fun i => (i.src.id, i.plugin)) =
            ms.map (fun p => (e.id, p)) := by
          have := buildInvocations_dec b e ms ctr
          rw [hbe] at this
          exact this
        rw [← hcnt]
        have ihc := ih bctr
        cases hr : runBatch b es bctr with
        | error err =>
          rw [hr] at ihc
          rw [← ihc]
          rfl
        | ok r =>
          rw [hr] at ihc
          rw [← ihc]
          simp only [decisionView, Except.map, List.map_append, hdec]

/-! Claim theorems. -/

/-- C1: a completed plugin invocation that raised a domain error
(PluginException) with message M makes the completion callback post exactly
one message, whose attachments are a single attachment with `text` and
`fallback` both equal to M, `color` equal to the failure color danger, a
title naming the plugin type, and whose channel field equals the
originating event channel whenever the event carried one. -/
theorem spec_c1 (bot : Bot) (e : EventObj) (ctr : Nat) (invs : List Invocation)
    (c2 : Nat) (h : processEvent bot e ctr = .ok (invs, c2)) (inv : Invocation)
    (hm : inv ∈ invs) (M : String) :
    ∃ msg : PostedMessage,
      postErrorResponse inv.plugin inv.response (PlugOutcome.pluginExc M) =
        ([msg], 0) ∧
      msg.attachments = [⟨"Error with plugin \x27" ++ inv.plugin.name ++ "\x27",
        M, ["text"], "danger", M⟩] ∧
      ∀ ch, e.ev.channel = some ch → msg.fields.lookup "channel" = some ch := by
  obtain ⟨ms, hsel, hinvs, hc⟩ := processEvent_ok_shape bot e ctr invs c2 h
  subst hinvs
  obtain ⟨hsrc, hev, hge, k, hresp⟩ := buildInvocations_shape bot e ms ctr inv hm
  refine ⟨{ fields := inv.response.fields
            attachments := [⟨"Error with plugin \x27" ++ inv.plugin.name ++ "\x27",
              M, ["text"], "danger", M⟩] }, rfl, rfl, ?_⟩
  intro ch hch
  show inv.response.fields.lookup "channel" = some ch
  rw [hresp]
  exact mkResponse_lookup_channel bot e.ev k ch hch

/-- C1 witness at a concrete invocation. -/
theorem spec_c1_witness :
    ∃ msg : PostedMessage,
      postErrorResponse sampleInv.plugin sampleInv.response
        (PlugOutcome.pluginExc "boom") = ([msg], 0) ∧
      msg.attachments = [⟨"Error with plugin \x27" ++ sampleInv.plugin.name ++ "\x27",
        "boom", ["text"], "danger", "boom"⟩] ∧
      ∀ ch, sampleEvent.ev.channel = some ch →
        msg.fields.lookup "channel" = some ch :=
  spec_c1 sampleBot sampleEvent 1 [sampleInv] 3 (by rfl) sampleInv (by decide) "boom"

/-- C2: an event whose subtype is the bot-origin marker or whose hidden
field is truthy is discarded by the run loop before any dispatch, and no
invocation produced by any batch originates from such an event. -/
theorem spec_c2 (bot : Bot) (e : EventObj) (es : List EventObj) (ctr : Nat)
    (h : e.ev.subtype = some "bot_message" ∨ truthyHidden e.ev = true) :
    runBatch bot (e :: es) ctr = runBatch bot es ctr ∧
    ∀ bs invs c2, runBatch bot bs ctr = .ok (invs, c2) →
      ∀ inv ∈ invs, inv.src.ev.subtype ≠ some "bot_message" ∧
        truthyHidden inv.src.ev = false := by
  have hskip : skipEvent e.ev = true := by
    unfold skipEvent
    rcases h with h | h
    · simp [h]
    · simp [h]
  constructor
  · simp only [runBatch, hskip, if_true]
  · intro bs invs c2 hrb inv hm
    have hns := runBatch_mem_not_skip bot bs ctr invs c2 hrb inv hm
    unfold skipEvent at hns
    rw [Bool.or_eq_false_iff] at hns
    obtain ⟨h1, h2⟩ := hns
    refine ⟨?_, h2⟩
    intro hc
    rw [hc] at h1
    simp at h1

/-- C2 witness at a concrete bot-originated event. -/
theorem spec_c2_witness :
    runBatch sampleBot [botMsgEvent] 0 = runBatch sampleBot [] 0 :=
  (spec_c2 sampleBot botMsgEvent [] 0 (Or.inl rfl)).1

/-- C3: dispatching a surviving event submits exactly the plugins whose
`event_type` equals the event type, in collection order, so the invocation
count equals the number of matching plugins. -/
theorem spec_c3 (bot : Bot) (e : EventObj) (ctr : Nat) (t : String)
    (ht : e.ev.type = some t) (invs : List Invocation) (c2 : Nat)
    (h : processEvent bot e ctr = .ok (invs, c2)) :
    invs.map (fun i => i.plugin) =
      bot.plugins.filter (fun p => p.event_type == t) ∧
    invs.length = (bot.plugins.filter (fun p => p.event_type == t)).length := by
  obtain ⟨ms, hsel, hinvs, hc⟩ := processEvent_ok_shape bot e ctr invs c2 h
  rw [selectPlugins_ok e.ev t ht bot.plugins] at hsel
  have hms : bot.plugins.filter (fun p => p.event_type == t) = ms :=
    Except.ok.inj hsel
  subst hinvs
  constructor
  · rw [buildInvocations_map_plugin, hms]
  · have hlen := congrArg List.length (buildInvocations_map_plugin bot e ms ctr)
    rw [List.length_map] at hlen
    rw [hlen, hms]

/-- C3 witness at a concrete event and plugin collection. -/
theorem spec_c3_witness :
    [sampleInv].map (fun i => i.plugin) =
      sampleBot.plugins.filter (fun p => p.event_type == "message") ∧
    [sampleInv].length =
      (sampleBot.plugins.filter (fun p => p.event_type == "message")).length :=
  spec_c3 sampleBot sampleEvent 1 "message" rfl [sampleInv] 3 (by rfl)

/-- C4: a completed invocation that raised a non-domain error makes the
callback post nothing and log exactly one error; an invocation that
completed without error makes it neither post nor log. -/
theorem spec_c4 (p : PluginInst) (r : Obj) (d : String) :
    postErrorResponse p r (PlugOutcome.otherExc d) = ([], 1) ∧
    postErrorResponse p r PlugOutcome.ok = ([], 0) :=
  ⟨rfl, rfl⟩

/-- C5: a plugin class whose construction raises leaves the collection
unchanged and registration of the remaining classes proceeds; after
loading, the collection size equals the reported count of successfully
constructed plugins. -/
theorem spec_c5 :
    (∀ (ps : List PluginInst) (k : PluginClass) (s : String),
        k.init [InitArg.botRef] = .error s → registerPlugin ps k = (ps, false)) ∧
    (∀ (ps : List PluginInst) (num : Nat) (k : PluginClass)
        (ks : List PluginClass) (s : String),
        k.init [InitArg.botRef] = .error s →
        loadPluginsAux ps num (k :: ks) = loadPluginsAux ps num ks) ∧
    (∀ cs : List PluginClass, (loadPlugins cs).1.length = (loadPlugins cs).2) := by
  have key : ∀ (ks : List PluginClass) (ps : List PluginInst) (num : Nat),
      (loadPluginsAux ps num ks).1.length + num =
        (loadPluginsAux ps num ks).2 + ps.length := by
    intro ks
    induction ks with
    | nil => intro ps num; simp only [loadPluginsAux]; omega
    | cons k ks ih =>
      intro ps num
      cases hk : k.init [InitArg.botRef] with
      | ok inst =>
        have hreg : registerPlugin ps k = (ps ++ [inst], true) := by
          unfold registerPlugin
          rw [hk]
        simp only [loadPluginsAux, hreg, if_true]
        have h2 := ih (ps ++ [inst]) (num + 1)
        simp only [List.length_append, List.length_cons, List.length_nil] at h2 ⊢
        omega
      | error s =>
        have hreg : registerPlugin ps k = (ps, false) := by
          unfold registerPlugin
          rw [hk]
        simp only [loadPluginsAux, hreg, Bool.false_eq_true, if_false]
        exact ih ps num
  refine ⟨?_, ?_, ?_⟩
  · intro ps k s hk
    unfold registerPlugin
    rw [hk]
  · intro ps num k ks s hk
    have hreg : registerPlugin ps k = (ps, false) := by
      unfold registerPlugin
      rw [hk]
    simp only [loadPluginsAux, hreg, Bool.false_eq_true, if_false]
  · intro cs
    have h2 := key cs [] 0
    unfold loadPlugins
    simp only [List.length_nil] at h2
    omega

/-- C5 witness: a failing class is skipped, loading continues, and the
count matches the collection size. -/
theorem spec_c5_witness :
    registerPlugin [] uptimeClass = ([], false) ∧
    loadPluginsAux [] 0 [uptimeClass, otherClass] =
      loadPluginsAux [] 0 [otherClass] ∧
    (loadPlugins [uptimeClass, otherClass]).1.length =
      (loadPlugins [uptimeClass, otherClass]).2 :=
  ⟨spec_c5.1 [] uptimeClass "TypeError: Uptime init takes no arguments" rfl,
   spec_c5.2.1 [] 0 uptimeClass [otherClass]
     "TypeError: Uptime init takes no arguments" rfl,
   spec_c5.2.2 [uptimeClass, otherClass]⟩

/-- C6: the claim says every discovered plugin type is constructed by a
no-argument initializer, but `register_plugin` applies the class to the bot
instance (`plugin(self)`), so the repository's own Uptime plugin, whose
initializer takes no arguments and constructs fine without them, raises a
TypeError under the loader and is skipped: loading the plugin directory
yields an empty collection. -/
theorem spec_c6 :
    uptimeClass.init [] = .ok uptimePlugin ∧
    registerPlugin [] uptimeClass = ([], false) ∧
    loadPlugins [uptimeClass] = ([], 0) :=
  ⟨rfl, rfl, rfl⟩

/-- C7: command lookup returns a plugin only if it is a command plugin
whose trigger list contains the trigger under exact string equality, and a
trigger contained in no command plugin resolves to no plugin. -/
theorem spec_c7 (ps : List PluginInst) (t : String) :
    (∀ p, getCommand ps t = some p → p.isCommand = true ∧ t ∈ p.triggers) ∧
    ((∀ p ∈ ps, p.isCommand = true → t ∉ p.triggers) → getCommand ps t = none) := by
  induction ps with
  | nil =>
    refine ⟨fun p h => ?_, fun _ => rfl⟩
    simp [getCommand] at h
  | cons q qs ih =>
    constructor
    · intro p h
      unfold getCommand at h
      by_cases hq : (q.isCommand && hasTrigger t q.triggers) = true
      · rw [if_pos hq] at h
        obtain ⟨h1, h2⟩ : q.isCommand = true ∧ hasTrigger t q.triggers = true := by
          simpa using hq
        have hp : q = p := Option.some.inj h
        subst hp
        exact ⟨h1, (hasTrigger_iff t q.triggers).mp h2⟩
      · rw [if_neg hq] at h
        exact ih.1 p h
    · intro hall
      unfold getCommand
      have hq : (q.isCommand && hasTrigger t q.triggers) = false := by
        cases hc : q.isCommand with
        | false => simp
        | true =>
          simp only [Bool.true_and]
          rw [← Bool.not_eq_true]
          intro htr
          exact hall q (List.mem_cons_self q qs) hc
            ((hasTrigger_iff t q.triggers).mp htr)
      rw [if_neg (by simp [hq])]
      exact ih.2 (fun p hp hc => hall p (List.mem_cons_of_mem _ hp) hc)

/-- C7 witness at the Uptime plugin. -/
theorem spec_c7_witness :
    (uptimePlugin.isCommand = true ∧ "uptime" ∈ uptimePlugin.triggers) ∧
    getCommand [uptimePlugin] "nope" = none :=
  ⟨(spec_c7 [uptimePlugin] "uptime").1 uptimePlugin (by decide),
   (spec_c7 [uptimePlugin] "nope").2 (by decide)⟩

/-- C8: each dispatched invocation gets a response draft allocated for it
alone, containing exactly the bot identity fields plus the event channel
iff the event carries one, and its own copy of the event mapping, distinct
as an object from the original and from every other copy. -/
theorem spec_c8 (bot : Bot) (e : EventObj) (ctr : Nat) (invs : List Invocation)
    (c2 : Nat) (hid : e.id < ctr) (h : processEvent bot e ctr = .ok (invs, c2)) :
    (invs.map (fun i => i.response.id)).Nodup ∧
    (∀ inv ∈ invs, inv.response.fields =
      [("username", bot.username), ("icon_emoji", bot.icon_emoji)] ++
        (match e.ev.channel with
         | some c => [("channel", c)]
         | none => [])) ∧
    (invs.map (fun i => i.eventCopy.id)).Nodup ∧
    (∀ inv ∈ invs, inv.eventCopy.ev = e.ev ∧ inv.eventCopy.id ≠ e.id) := by
  obtain ⟨ms, hsel, hinvs, hc⟩ := processEvent_ok_shape bot e ctr invs c2 h
  subst hinvs
  refine ⟨?_, ?_, ?_, ?_⟩
  · rw [buildInvocations_resp_ids]
    refine List.Nodup.map ?_ (List.nodup_range _)
    intro a b hab
    simpa using hab
  · intro inv hm
    obtain ⟨hsrc, hev, hge, k, hresp⟩ := buildInvocations_shape bot e ms ctr inv hm
    rw [hresp]
    rfl
  · rw [buildInvocations_copy_ids]
    refine List.Nodup.map ?_ (List.nodup_range _)
    intro a b hab
    simp only at hab
    omega
  · intro inv hm
    obtain ⟨hsrc, hev, hge, k, hresp⟩ := buildInvocations_shape bot e ms ctr inv hm
    exact ⟨hev, by omega⟩

/-- C8 witness at a concrete dispatch. -/
theorem spec_c8_witness :
    ([sampleInv].map (fun i => i.response.id)).Nodup :=
  (spec_c8 sampleBot sampleEvent 1 [sampleInv] 3 (by decide) (by rfl)).1

/-- C9: dispatch decisions are deterministic: two bots with the same
plugin collection produce identical (event, plugin) invocation pairs on
any identical batch, whatever their other state. -/
theorem spec_c9 (b1 b2 : Bot) (hp : b1.plugins = b2.plugins)
    (es : List EventObj) (ctr : Nat) :
    dispatchDecisions b1 es ctr = dispatchDecisions b2 es ctr := by
  unfold dispatchDecisions
  rw [runBatch_decisions b1 es ctr, runBatch_decisions b2 es ctr, hp]

/-- C9 witness: two bots differing in identity fields but sharing the
plugin collection decide a concrete batch identically. -/
theorem spec_c9_witness :
    dispatchDecisions sampleBot [sampleEvent] 0 =
      dispatchDecisions otherBot [sampleEvent] 0 :=
  spec_c9 sampleBot otherBot rfl [sampleEvent] 0

/-- C10 counterexample: a surviving event with no `type` key does not
raise a lookup error when the plugin collection is empty, because the
lookup happens inside the per-plugin filter lambda; dispatch completes
normally with no invocations and the loop continues. -/
theorem spec_c10_cx :
    skipEvent notypeEvent.ev = false ∧ notypeEvent.ev.type = none ∧
    processEvent emptyBot notypeEvent 0 = .ok ([], 0) ∧
    runBatch emptyBot [notypeEvent] 0 = .ok ([], 0) :=
  ⟨rfl, rfl, rfl, rfl⟩

/-- C10 (amended): for a surviving event lacking a `type` key, dispatch
raises a KeyError that neither `process_event` nor the run loop catches,
provided the plugin collection is non-empty. -/
theorem spec_c10 (bot : Bot) (e : EventObj) (es : List EventObj) (ctr : Nat)
    (p : PluginInst) (ps : List PluginInst)
    (hplug : bot.plugins = p :: ps) (ht : e.ev.type = none)
    (hs : skipEvent e.ev = false) :
    processEvent bot e ctr = .error (PyErr.keyError "type") ∧
    runBatch bot (e :: es) ctr = .error (PyErr.keyError "type") := by
  have hpe : processEvent bot e ctr = .error (.keyError "type") := by
    unfold processEvent
    rw [hplug, selectPlugins_err e.ev ht p ps]
  refine ⟨hpe, ?_⟩
  simp only [runBatch, hs, Bool.false_eq_true, if_false, hpe]

/-- C10 witness: the amended claim at a concrete non-empty collection. -/
theorem spec_c10_witness :
    runBatch sampleBot [notypeEvent] 0 = .error (PyErr.keyError "type") :=
  (spec_c10 sampleBot notypeEvent [] 0 uptimePlugin [] rfl rfl rfl).2

end Nimbus
